import Mathlib

/-!
Verification of the docktor multi-metric scaling decision engine.

This file is a shallow embedding of the scaling core of the docktor
repository: the rule evaluator and decision engine (`toolDecideScaleMulti`),
the per-iteration monitoring step (`runScalingIteration`), the queue
provider registry (`queue.NewProvider`) and the NATS rate computation
(`NATSProvider.GetMetrics`).

Modelling conventions:
- Go `float64` values are modelled as exact rationals (`ℚ`); every comparison
  performed by the code is an order comparison that agrees with the rational
  one on all values the program manipulates.
- Go `int` is 64 bits wide and wraps on overflow; its values are modelled
  as integers in `[-(2 ^ 63), 2 ^ 63)` and every addition or subtraction
  the engine performs on them is reduced by `int64Wrap`. The replica
  arguments of the decision engine are reachable unconstrained through the
  MCP `decide_scale_multi` JSON surface, so extreme in-range values are
  real inputs.
- Go `uint64` counters are modelled as naturals, with subtraction performed
  modulo `2 ^ 64` exactly as Go unsigned subtraction does.
- Go maps with string keys are modelled as association lists queried by
  `goMapGet` (first binding wins; insertion keeps keys unique).
- fallible operations return `Except`/`Option`; a failed single-form Go type
  assertion `v.(T)` is a runtime panic, modelled by an explicit
  `IterationOutcome.panicked` result.
-/

namespace Docktor

/-- Go map lookup in comma-ok form (`value, exists := m[key]`): returns
`some value` when the key is bound, `none` otherwise. -/
def goMapGet {α : Type} : List (String × α) → String → Option α
  | [], _ => none
  | (k, v) :: rest, key => if k = key then some v else goMapGet rest key

/-- `Condition` from the config model (part_003 lines 168-173): a metric
name, a comparison operator string and a float64 threshold. -/
structure Condition where
  metric : String
  op : String
  value : ℚ
deriving DecidableEq, Repr

/-- `Rules` from the config model (part_003 lines 175-179): scale-up
conditions are OR-combined, scale-down conditions AND-combined. -/
structure Rules where
  scaleUpWhen : List Condition
  scaleDownWhen : List Condition
deriving DecidableEq, Repr

/-- Observation set: the Go `map[string]float64` of named metric values. -/
abbrev Observations := List (String × ℚ)

/-- The `evaluateCondition` closure of `toolDecideScaleMulti` (part_003
lines 1244-1266): a metric absent from the observation map yields `false`;
otherwise the operator string selects the comparison, and an operator
outside the six known ones yields `false` (the switch default). The Go
string switch is rendered as the equivalent chain of equality tests. -/
def evaluateCondition (observations : Observations) (cond : Condition) : Bool :=
  match goMapGet observations cond.metric with
  | none => false
  | some value =>
    if cond.op = ">" then decide (value > cond.value)
    else if cond.op = ">=" then decide (value ≥ cond.value)
    else if cond.op = "<" then decide (value < cond.value)
    else if cond.op = "<=" then decide (value ≤ cond.value)
    else if cond.op = "==" then decide (value = cond.value)
    else if cond.op = "!=" then decide (value ≠ cond.value)
    else false

/-- Renders one decimal digit, modelling the Go format verb `%.1f` used in
matched-rule descriptions (rounding to the nearest tenth; the tie-breaking
rule is immaterial to every property proved in this file, since no claim
inspects the digits of a reason string). -/
def sprintf1f (q : ℚ) : String :=
  let n : ℤ := round (q * 10)
  let sign := if n < 0 then "-" else ""
  sign ++ toString (n.natAbs / 10) ++ "." ++ toString (n.natAbs % 10)

/-- Description string recorded for a matched condition (part_003 line 1273
and 1283): `fmt.Sprintf("%s %.1f %s %.1f", cond.Metric, val, cond.Op,
cond.Value)` where `val := observations[cond.Metric]` (a missing key would
read the zero value, but the description is only built for matched
conditions, whose metric is present). -/
def describeMatch (observations : Observations) (cond : Condition) : String :=
  cond.metric ++ " " ++ sprintf1f ((goMapGet observations cond.metric).getD 0)
    ++ " " ++ cond.op ++ " " ++ sprintf1f cond.value

/-- The `scaleUpMatches` list built by the loop at part_003 lines 1269-1275:
one description per scale-up condition that evaluates to true, in rule
order. -/
def scaleUpMatches (rules : Rules) (observations : Observations) : List String :=
  (rules.scaleUpWhen.filter (evaluateCondition observations)).map (describeMatch observations)

/-- The `scaleDownMatches` list built by the loop at part_003 lines
1278-1287: one description per scale-down condition that evaluates to
true, in rule order. -/
def scaleDownMatches (rules : Rules) (observations : Observations) : List String :=
  (rules.scaleDownWhen.filter (evaluateCondition observations)).map (describeMatch observations)

/-- The `allScaleDownMatch` flag of part_003 lines 1279-1287: initialised to
`len(rules.ScaleDownWhen) > 0` and cleared as soon as one scale-down
condition fails, i.e. true exactly when the list is non-empty and every
condition evaluates to true. -/
def allScaleDownMatch (rules : Rules) (observations : Observations) : Bool :=
  decide (0 < rules.scaleDownWhen.length)
    && rules.scaleDownWhen.all (evaluateCondition observations)

/-- Go 64-bit signed integer wraparound: the value of a Go `int`
expression whose mathematical result is `z`. For `z` already in
`[-(2 ^ 63), 2 ^ 63)` this is `z` itself; outside it wraps modulo
`2 ^ 64`, exactly as Go `int` addition and subtraction overflow. -/
def int64Wrap (z : ℤ) : ℤ := (z + 2 ^ 63) % 2 ^ 64 - 2 ^ 63

/-- The decision record returned by `toolDecideScaleMulti` (part_003 lines
1329-1336), with the `map[string]interface{}` keys rendered as typed
fields. `policy` is the constant `"multi-metric evaluation"`. -/
structure Decision where
  action : String
  targetReplicas : ℤ
  currentReplicas : ℤ
  reason : String
  policy : String
  matchedRules : List String
deriving DecidableEq, Repr

/-- Final adjustment of `toolDecideScaleMulti` (part_003 lines 1321-1327,
"Enforce bounds and convert to hold if no change") applied to the
`(action, targetReplicas, reason, matchedRules)` chosen by the branch at
lines 1295-1319, followed by assembly of the returned record. -/
def finishDecision (currentReplicas : ℤ) :
    String × ℤ × String × List String → Decision
  | (action, targetReplicas, reason, matchedRules) =>
    { action := if targetReplicas = currentReplicas then "hold" else action
      targetReplicas := targetReplicas
      currentReplicas := currentReplicas
      reason := if targetReplicas = currentReplicas ∧ 0 < matchedRules.length
        then "already at target replicas (" ++ toString currentReplicas ++ ")"
        else reason
      policy := "multi-metric evaluation"
      matchedRules := matchedRules }

/-- `toolDecideScaleMulti` (part_003 lines 1241-1337): evaluates the rules
against the observations and decides `scale_up` / `scale_down` / `hold`
with a step-bounded target. The replica parameters are Go `int` (int64)
values, so the step arithmetic `currentReplicas + 2` (line 1298) and
`currentReplicas - 1` (line 1307) wraps on int64 overflow, which
`int64Wrap` reproduces; the subsequent cap comparisons act on the wrapped
value. `serviceName` is accepted but unused, exactly as in the source. -/
def toolDecideScaleMulti (serviceName : String)
    (currentReplicas minReplicas maxReplicas : ℤ)
    (rules : Rules) (observations : Observations) : Decision :=
  finishDecision currentReplicas
    (if 0 < (scaleUpMatches rules observations).length then
      ("scale_up",
       (if int64Wrap (currentReplicas + 2) > maxReplicas then maxReplicas
        else int64Wrap (currentReplicas + 2)),
       String.intercalate " OR " (scaleUpMatches rules observations),
       scaleUpMatches rules observations)
    else if allScaleDownMatch rules observations then
      ("scale_down",
       (if int64Wrap (currentReplicas - 1) < minReplicas then minReplicas
        else int64Wrap (currentReplicas - 1)),
       String.intercalate " AND " (scaleDownMatches rules observations),
       scaleDownMatches rules observations)
    else
      ("hold", currentReplicas, "no scaling conditions met", []))

namespace queue

/-- Go `error` values produced inside the queue package: the dedicated
`*UnsupportedKindError` struct (main.go lines 1204-1211) versus the plain
`fmt.Errorf` strings every other failure path produces. -/
inductive GoError where
  | unsupportedKind (kind : String)
  | errorString (msg : String)
deriving DecidableEq, Repr

/-- `queue.Config` (main.go lines 1165-1170): backend kind, connection URL
and vendor-specific string attributes. -/
structure Config where
  kind : String
  url : String
  attributes : List (String × String)
deriving DecidableEq, Repr

/-- `NATSProvider` (main.go lines 1222-1231), restricted to its
configuration fields (the live connection handles play no part in any
claim about construction). -/
structure NATSProvider where
  url : String
  stream : String
  consumer : String
  subject : String
  jetstream : Bool
deriving DecidableEq, Repr

/-- `NewNATSProvider` (main.go lines 1233-1255): builds the provider from
the config attributes (a missing attribute reads the Go zero value `""`)
and rejects configs without `jetstream: true`, a stream or a consumer.
Error messages follow the source with the source's inner quotes omitted. -/
def NewNATSProvider (cfg : Config) : Except GoError NATSProvider :=
  let provider : NATSProvider :=
    { url := cfg.url
      stream := (goMapGet cfg.attributes "stream").getD ""
      consumer := (goMapGet cfg.attributes "consumer").getD ""
      subject := (goMapGet cfg.attributes "subject").getD ""
      jetstream := decide ((goMapGet cfg.attributes "jetstream").getD "" = "true") }
  if !provider.jetstream then
    .error (.errorString "NATS provider requires JetStream (jetstream: true)")
  else if provider.stream = "" then
    .error (.errorString "NATS provider requires stream attribute")
  else if provider.consumer = "" then
    .error (.errorString "NATS provider requires consumer attribute")
  else .ok provider

/-- The process-wide provider registry (main.go line 1188) as populated by
package initialisation, which registers exactly one backend:
`Register("nats", NewNATSProvider)` (main.go lines 1372-1375). The
`Provider` interface is instantiated at its only implementation. -/
def registry : List (String × (Config → Except GoError NATSProvider)) :=
  [("nats", NewNATSProvider)]

/-- `queue.NewProvider` (main.go lines 1195-1202): looks the kind up in the
registry; an unregistered kind fails with `UnsupportedKindError` carrying
that kind, a registered kind invokes the registered factory. -/
def NewProvider (cfg : Config) : Except GoError NATSProvider :=
  match goMapGet registry cfg.kind with
  | none => .error (.unsupportedKind cfg.kind)
  | some factory => factory cfg

/-- Go `uint64` subtraction `a - b` (both arguments reduced to their
64-bit value first): wraps modulo `2 ^ 64`, never clamps at zero. -/
def uint64Sub (a b : ℕ) : ℕ := (a % 2 ^ 64 + 2 ^ 64 - b % 2 ^ 64) % 2 ^ 64

/-- The `rate_in` computation of `NATSProvider.GetMetrics` (main.go lines
1323-1325): `msgDelta := streamInfo2.State.Msgs - streamInfo1.State.Msgs;
metrics.RateIn = float64(msgDelta) / float64(windowSec)`. `State.Msgs` is
a `uint64` cumulative message counter in the NATS client library, so the
subtraction is Go unsigned subtraction and wraps modulo `2 ^ 64`; the
`float64` conversions and division are modelled exactly over `ℚ` (the
rounding float64 would apply to an astronomically large delta does not
affect whether the result is zero). The `rate_out` computation at lines
1327-1329 has the identical shape over the consumer's `AckFloor.Stream`
counter. Note the contrast with the `lag` computation at lines 1316-1320,
which casts to `int64` and explicitly clamps a negative difference to 0. -/
def rateIn (msgs1 msgs2 windowSec : ℕ) : ℚ :=
  (uint64Sub msgs2 msgs1 : ℚ) / (windowSec : ℚ)

end queue

/-- `QueueConfig` from the config model (part_003 lines 181-190). -/
structure QueueConfig where
  kind : String
  url : String
  jetstream : Bool
  stream : String
  consumer : String
  subject : String
  metrics : List String
deriving DecidableEq, Repr

/-- `ServiceConfig` from the config model (part_003 lines 192-201); the
`queue` field is the optional queue block (`nil` pointer when absent). -/
structure ServiceConfig where
  name : String
  minReplicas : ℤ
  maxReplicas : ℤ
  metricsWindow : ℤ
  checkInterval : ℤ
  rules : Rules
  queue : Option QueueConfig
deriving Repr

/-- A Go `interface{}` value as stored in the decision map: the dynamic
type tag is what the daemon's type assertions inspect. -/
inductive GoDyn where
  | goInt (i : ℤ)
  | goFloat (q : ℚ)
  | goString (s : String)
  | goStringList (l : List String)
deriving DecidableEq, Repr

/-- The `map[string]interface{}` literally returned by
`toolDecideScaleMulti` (part_003 lines 1329-1336): `target_replicas` and
`current_replicas` are stored as Go `int` values. -/
def decisionMap (d : Decision) : List (String × GoDyn) :=
  [("action", .goString d.action),
   ("target_replicas", .goInt d.targetReplicas),
   ("current_replicas", .goInt d.currentReplicas),
   ("reason", .goString d.reason),
   ("policy", .goString d.policy),
   ("matched_rules", .goStringList d.matchedRules)]

/-- Go single-form type assertion `v.(string)`: yields the string when the
dynamic type is `string`, otherwise the assertion panics — modelled by
`none`, which the iteration turns into `IterationOutcome.panicked`. -/
def assertString : Option GoDyn → Option String
  | some (.goString s) => some s
  | _ => none

/-- Go single-form type assertion `v.(float64)`: yields the float when the
dynamic type is `float64`; any other dynamic type (in particular `int`)
panics — modelled by `none`. -/
def assertFloat : Option GoDyn → Option ℚ
  | some (.goFloat q) => some q
  | _ => none

/-- Go conversion `int(f)` of a float64: truncation toward zero. -/
def goIntOfFloat (q : ℚ) : ℤ := q.num / (q.den : ℤ)

/-- Merging of observation maps in `runScalingIteration` (part_003 lines
1467-1483): start from the CPU metrics, then write every queue metric over
it; later bindings win, keys stay unique. -/
def mergeObservations (base extra : Observations) : Observations :=
  base.filter (fun p => (goMapGet extra p.1).isNone) ++ extra

/-- The decision record appended to `/tmp/docktor-decisions.jsonl` by
`logDecisionJSONL` (part_003 lines 1520-1543), minus the wall-clock
timestamp (real time carries no algorithmic content). -/
structure LedgerEntry where
  service : String
  action : String
  currentReplicas : ℤ
  targetReplicas : ℤ
  reason : String
  observations : Observations
  matchedRules : List String
deriving DecidableEq, Repr

/-- Results delivered by the external collaborators during one monitoring
iteration: the replica-count read, the CPU metric collection, and the
queue metric collection (consulted only when the service has a queue
block). -/
structure MonitorEnv where
  currentReplicasResult : Except String ℤ
  cpuMetricsResult : Except String Observations
  queueMetricsResult : Except String Observations
deriving Repr

/-- How one monitoring iteration ends: an early `return` after a failed
replica read (part_003 lines 1453-1457), an early `return` after a failed
CPU collection (lines 1461-1465), a Go runtime panic from a failed type
assertion (line 1494 or 1495), or completion with the ledger record passed
to `logDecisionJSONL` (line 1515). -/
inductive IterationOutcome where
  | abortedReplicaRead
  | abortedCpuCollection
  | panicked
  | completed (entry : LedgerEntry)
deriving DecidableEq, Repr

/-- `runScalingIteration` (part_003 lines 1446-1518). A failed replica
read or CPU collection aborts the iteration; a failed queue collection is
only a logged warning and the iteration proceeds with the CPU
observations. The decision map is then read back with the single-form
type assertions `decision["action"].(string)` (succeeds: the value is a
string) and `int(decision["target_replicas"].(float64))` — the value is a
Go `int`, so this assertion is evaluated faithfully and panics. The
apply-scale step (lines 1502-1512) only logs, so it does not appear in
the outcome. -/
def runScalingIteration (svc : ServiceConfig) (env : MonitorEnv) :
    IterationOutcome :=
  match env.currentReplicasResult with
  | .error _ => .abortedReplicaRead
  | .ok currentReplicas =>
    match env.cpuMetricsResult with
    | .error _ => .abortedCpuCollection
    | .ok cpuMetrics =>
      let observations :=
        match svc.queue with
        | none => cpuMetrics
        | some _ =>
          match env.queueMetricsResult with
          | .error _ => cpuMetrics
          | .ok queueMetrics => mergeObservations cpuMetrics queueMetrics
      let decision := decisionMap (toolDecideScaleMulti svc.name
        currentReplicas svc.minReplicas svc.maxReplicas svc.rules observations)
      match assertString (goMapGet decision "action") with
      | none => .panicked
      | some action =>
        match assertFloat (goMapGet decision "target_replicas") with
        | none => .panicked
        | some targetFloat =>
          match assertString (goMapGet decision "reason") with
          | none => .panicked
          | some reason =>
            .completed
              { service := svc.name
                action := action
                currentReplicas := currentReplicas
                targetReplicas := goIntOfFloat targetFloat
                reason := reason
                observations := observations
                matchedRules :=
                  match goMapGet decision "matched_rules" with
                  | some (.goStringList l) => l
                  | _ => [] }

/-- A concrete monitored service with a queue block, used to evaluate
`runScalingIteration` on explicit collaborator outcomes. -/
def exampleService : ServiceConfig :=
  { name := "worker"
    minReplicas := 1
    maxReplicas := 5
    metricsWindow := 10
    checkInterval := 10
    rules := ⟨[⟨"cpu.avg", ">", 75⟩], []⟩
    queue := some
      { kind := "nats"
        url := "nats://localhost:4222"
        jetstream := true
        stream := "EVENTS"
        consumer := "worker"
        subject := ""
        metrics := [] } }

/-- Spec-side reading of a single condition, for comparison with the code:
the condition's named metric is present in the observation set and the
comparison selected by the operator holds for the observed value against
the threshold. -/
def conditionHolds (observations : Observations) (cond : Condition) : Prop :=
  ∃ v, goMapGet observations cond.metric = some v ∧
    ((cond.op = ">" ∧ cond.value < v) ∨
     (cond.op = ">=" ∧ cond.value ≤ v) ∨
     (cond.op = "<" ∧ v < cond.value) ∨
     (cond.op = "<=" ∧ v ≤ cond.value) ∨
     (cond.op = "==" ∧ v = cond.value) ∨
     (cond.op = "!=" ∧ v ≠ cond.value))

/-- The code's condition evaluator agrees with the spec-side reading. -/
lemma evaluateCondition_iff (observations : Observations) (cond : Condition) :
    evaluateCondition observations cond = true ↔ conditionHolds observations cond := by
  unfold evaluateCondition conditionHolds
  cases h : goMapGet observations cond.metric with
  | none => simp
  | some v =>
    split_ifs with h1 h2 h3 h4 h5 h6 <;>
      simp_all [decide_eq_true_iff, GT.gt]

/-- An int64-representable value passes through `int64Wrap` unchanged. -/
lemma int64Wrap_eq_self (z : ℤ) (h1 : -(2 ^ 63) ≤ z) (h2 : z < 2 ^ 63) :
    int64Wrap z = z := by
  unfold int64Wrap
  omega

/-- C1 counterexample: at `current = 2 ^ 63 - 2`, `min = 1`,
`max = 2 ^ 63 - 1` (all valid Go `int` values with `min ≤ current ≤ max`,
reachable through the MCP `decide_scale_multi` JSON input) with a matching
scale-up condition, the Go step `current + 2` wraps to `-(2 ^ 63)`, the
`target > max` cap does not fire, and the returned target violates
`min ≤ target`. -/
theorem target_bounds_overflow_counterexample :
    (1 : ℤ) ≤ 2 ^ 63 - 2 ∧ (2 ^ 63 - 2 : ℤ) ≤ 2 ^ 63 - 1 ∧
      (toolDecideScaleMulti "web" (2 ^ 63 - 2) 1 (2 ^ 63 - 1)
          ⟨[⟨"cpu.avg", ">", 0⟩], []⟩ [("cpu.avg", 50)]).targetReplicas =
        -(2 ^ 63) ∧
      ¬(1 : ℤ) ≤ (toolDecideScaleMulti "web" (2 ^ 63 - 2) 1 (2 ^ 63 - 1)
          ⟨[⟨"cpu.avg", ">", 0⟩], []⟩ [("cpu.avg", 50)]).targetReplicas :=
  ⟨by norm_num, by norm_num, by decide, by decide⟩

/-- C1 amended: for every int64 input with `min ≤ current ≤ max` whose
step arithmetic does not overflow int64 (`current + 2 < 2 ^ 63` and
`-(2 ^ 63) ≤ current - 1`), the target replica count produced by
`toolDecideScaleMulti` satisfies `min ≤ target ≤ max`. -/
theorem toolDecideScaleMulti_target_within_bounds (serviceName : String)
    (c mn mx : ℤ) (rules : Rules) (obs : Observations)
    (h1 : mn ≤ c) (h2 : c ≤ mx)
    (h4 : c + 2 < 2 ^ 63) (h5 : -(2 ^ 63) ≤ c - 1) :
    mn ≤ (toolDecideScaleMulti serviceName c mn mx rules obs).targetReplicas ∧
      (toolDecideScaleMulti serviceName c mn mx rules obs).targetReplicas ≤ mx := by
  have e1 : int64Wrap (c + 2) = c + 2 := int64Wrap_eq_self _ (by omega) (by omega)
  have e2 : int64Wrap (c - 1) = c - 1 := int64Wrap_eq_self _ (by omega) (by omega)
  unfold toolDecideScaleMulti finishDecision
  rw [e1, e2]
  split_ifs <;> simp <;> omega

/-- Witness for C1 (amended) at a concrete input: `current = 2`,
`min = 2`, `max = 10`, rule `cpu.avg > 75`, observation `cpu.avg = 85`. -/
theorem toolDecideScaleMulti_target_within_bounds_witness :
    (2 : ℤ) ≤ 2 ∧ (2 : ℤ) ≤ 10 ∧
      (2 : ℤ) + 2 < 2 ^ 63 ∧ -(2 ^ 63 : ℤ) ≤ 2 - 1 ∧
      ((2 : ℤ) ≤ (toolDecideScaleMulti "web" 2 2 10
          ⟨[⟨"cpu.avg", ">", 75⟩], []⟩ [("cpu.avg", 85)]).targetReplicas ∧
        (toolDecideScaleMulti "web" 2 2 10
          ⟨[⟨"cpu.avg", ">", 75⟩], []⟩ [("cpu.avg", 85)]).targetReplicas ≤ 10) :=
  ⟨by norm_num, by norm_num, by norm_num, by norm_num,
    toolDecideScaleMulti_target_within_bounds "web" 2 2 10
      ⟨[⟨"cpu.avg", ">", 75⟩], []⟩ [("cpu.avg", 85)] (by norm_num) (by norm_num)
      (by norm_num) (by norm_num)⟩

/-- C2: the engine's scale-up verdict (`len(scaleUpMatches) > 0`) is true
iff at least one `scale_up_when` condition's comparison holds; the
scale-down verdict (`allScaleDownMatch`) is true iff `scale_down_when` is
non-empty and every one of its conditions holds; and a condition whose
named metric is absent from the observation set evaluates to false (no
error is possible: the evaluator is total). -/
theorem verdict_or_and_semantics (rules : Rules) (observations : Observations) :
    (0 < (scaleUpMatches rules observations).length ↔
      ∃ cond ∈ rules.scaleUpWhen, conditionHolds observations cond) ∧
    (allScaleDownMatch rules observations = true ↔
      rules.scaleDownWhen ≠ [] ∧
        ∀ cond ∈ rules.scaleDownWhen, conditionHolds observations cond) ∧
    (∀ cond : Condition, goMapGet observations cond.metric = none →
      evaluateCondition observations cond = false) := by
  refine ⟨?_, ?_, ?_⟩
  · simp [scaleUpMatches, List.length_pos, List.filter_eq_nil_iff,
      evaluateCondition_iff]
  · simp [allScaleDownMatch, List.all_eq_true, evaluateCondition_iff,
      List.length_pos]
  · intro cond h
    unfold evaluateCondition
    rw [h]

/-- Witness for C2 at a concrete input: the absent-metric conjunct applied
to an empty observation set. -/
theorem verdict_or_and_semantics_witness :
    goMapGet ([] : Observations) "cpu.avg" = none ∧
      evaluateCondition [] ⟨"cpu.avg", ">", 75⟩ = false :=
  ⟨rfl, (verdict_or_and_semantics ⟨[], []⟩ []).2.2 ⟨"cpu.avg", ">", 75⟩ rfl⟩

/-- C4: whenever the decision engine returns action `hold`, the returned
`target_replicas` equals `current_replicas`. -/
theorem hold_target_eq_current (serviceName : String) (c mn mx : ℤ)
    (rules : Rules) (obs : Observations)
    (h : (toolDecideScaleMulti serviceName c mn mx rules obs).action = "hold") :
    (toolDecideScaleMulti serviceName c mn mx rules obs).targetReplicas = c := by
  unfold toolDecideScaleMulti finishDecision at h ⊢
  split_ifs at h ⊢ <;> simp_all

/-- Witness for C4 at a concrete input: with no rules the engine holds at
the current count. -/
theorem hold_target_eq_current_witness :
    (toolDecideScaleMulti "web" 2 1 5 ⟨[], []⟩ []).action = "hold" ∧
      (toolDecideScaleMulti "web" 2 1 5 ⟨[], []⟩ []).targetReplicas = 2 :=
  ⟨rfl, hold_target_eq_current "web" 2 1 5 ⟨[], []⟩ [] rfl⟩

/-- C3 counterexample, two parts. Floor clause as stated: at
`current = min = 1`, `max = 10`, with `scale_up_when = [cpu.avg > 0]` and
`scale_down_when = [cpu.avg < 100]` under observation `cpu.avg = 50`, the
scale-down verdict is true and `current == min`, yet the engine returns
`scale_up` with target `3` (the scale-up branch wins), not `hold`.
Ceiling clause at the int64 extreme: at `current = max = 2 ^ 63 - 1` with
the same matching scale-up rule, the Go step `current + 2` wraps to
`-(2 ^ 63) + 1`, the cap does not fire, the wrapped target differs from
`current`, and the action stays `scale_up`, not `hold`. -/
theorem floor_scale_down_hold_counterexample :
    allScaleDownMatch ⟨[⟨"cpu.avg", ">", 0⟩], [⟨"cpu.avg", "<", 100⟩]⟩
        [("cpu.avg", 50)] = true ∧
      (toolDecideScaleMulti "web" 1 1 10
        ⟨[⟨"cpu.avg", ">", 0⟩], [⟨"cpu.avg", "<", 100⟩]⟩
        [("cpu.avg", 50)]).action = "scale_up" ∧
      (toolDecideScaleMulti "web" 1 1 10
        ⟨[⟨"cpu.avg", ">", 0⟩], [⟨"cpu.avg", "<", 100⟩]⟩
        [("cpu.avg", 50)]).targetReplicas = 3 ∧
      0 < (scaleUpMatches ⟨[⟨"cpu.avg", ">", 0⟩], []⟩
        [("cpu.avg", 50)]).length ∧
      (toolDecideScaleMulti "web" (2 ^ 63 - 1) 1 (2 ^ 63 - 1)
        ⟨[⟨"cpu.avg", ">", 0⟩], []⟩
        [("cpu.avg", 50)]).action = "scale_up" :=
  ⟨by decide, by decide, by decide, by decide, by decide⟩

/-- C3 amended: when a scale-up condition matches, `current == max` and
the step `current + 2` does not overflow int64, the engine returns `hold`
with `target == current`; and when NO scale-up condition matches, the
scale-down verdict is true, `current == min` and the step `current - 1`
does not underflow int64, the engine returns `hold` with
`target == current`. (The original claim omitted the no-scale-up-match
requirement from the floor clause, and both clauses fail at the int64
extremes where the Go step arithmetic wraps.) -/
theorem boundary_hold_amended (serviceName : String) (c mn mx : ℤ)
    (rules : Rules) (obs : Observations) :
    (0 < (scaleUpMatches rules obs).length → c = mx →
      -(2 ^ 63) ≤ c → c + 2 < 2 ^ 63 →
      (toolDecideScaleMulti serviceName c mn mx rules obs).action = "hold" ∧
        (toolDecideScaleMulti serviceName c mn mx rules obs).targetReplicas = c) ∧
    (scaleUpMatches rules obs = [] → allScaleDownMatch rules obs = true →
      c = mn → -(2 ^ 63) < c → c < 2 ^ 63 →
      (toolDecideScaleMulti serviceName c mn mx rules obs).action = "hold" ∧
        (toolDecideScaleMulti serviceName c mn mx rules obs).targetReplicas = c) := by
  constructor
  · intro h hc hr ho
    subst hc
    have e1 : int64Wrap (c + 2) = c + 2 :=
      int64Wrap_eq_self _ (by omega) (by omega)
    unfold toolDecideScaleMulti finishDecision
    rw [if_pos h, e1]
    split_ifs <;> simp_all
  · intro hup hdown hc hr ho
    subst hc
    have e2 : int64Wrap (c - 1) = c - 1 :=
      int64Wrap_eq_self _ (by omega) (by omega)
    unfold toolDecideScaleMulti finishDecision
    rw [if_neg (by simp [hup]), if_pos hdown, e2]
    split_ifs <;> simp_all

/-- Witness for C3 (amended) at concrete inputs: ceiling case
`current = max = 10` with a matching scale-up rule; floor case
`current = min = 2` with only a matching scale-down rule. -/
theorem boundary_hold_amended_witness :
    (0 < (scaleUpMatches ⟨[⟨"cpu.avg", ">", 75⟩], []⟩
        [("cpu.avg", 85)]).length ∧
      -(2 ^ 63 : ℤ) ≤ 10 ∧ (10 : ℤ) + 2 < 2 ^ 63 ∧
      (toolDecideScaleMulti "web" 10 2 10 ⟨[⟨"cpu.avg", ">", 75⟩], []⟩
          [("cpu.avg", 85)]).action = "hold" ∧
      (toolDecideScaleMulti "web" 10 2 10 ⟨[⟨"cpu.avg", ">", 75⟩], []⟩
          [("cpu.avg", 85)]).targetReplicas = 10) ∧
    (scaleUpMatches ⟨[], [⟨"cpu.avg", "<", 20⟩]⟩ [("cpu.avg", 10)] = [] ∧
      allScaleDownMatch ⟨[], [⟨"cpu.avg", "<", 20⟩]⟩ [("cpu.avg", 10)] = true ∧
      -(2 ^ 63 : ℤ) < 2 ∧ (2 : ℤ) < 2 ^ 63 ∧
      (toolDecideScaleMulti "web" 2 2 10 ⟨[], [⟨"cpu.avg", "<", 20⟩]⟩
          [("cpu.avg", 10)]).action = "hold" ∧
      (toolDecideScaleMulti "web" 2 2 10 ⟨[], [⟨"cpu.avg", "<", 20⟩]⟩
          [("cpu.avg", 10)]).targetReplicas = 2) := by
  refine ⟨⟨by decide, by norm_num, by norm_num, ?_⟩,
    ⟨by decide, by decide, by norm_num, by norm_num, ?_⟩⟩
  · exact (boundary_hold_amended "web" 10 2 10 ⟨[⟨"cpu.avg", ">", 75⟩], []⟩
      [("cpu.avg", 85)]).1 (by decide) rfl (by norm_num) (by norm_num)
  · exact (boundary_hold_amended "web" 2 2 10 ⟨[], [⟨"cpu.avg", "<", 20⟩]⟩
      [("cpu.avg", 10)]).2 (by decide) (by decide) rfl (by norm_num) (by norm_num)

/-- C5: whenever at least one scale-up condition matches, the decision is
determined by the scale-up branch alone — replacing the entire
`scale_down_when` list by any other list leaves the decision record
unchanged. -/
theorem scale_up_wins_ties (serviceName : String) (c mn mx : ℤ)
    (up down down2 : List Condition) (obs : Observations)
    (h : 0 < (scaleUpMatches ⟨up, down⟩ obs).length) :
    toolDecideScaleMulti serviceName c mn mx ⟨up, down⟩ obs =
      toolDecideScaleMulti serviceName c mn mx ⟨up, down2⟩ obs := by
  unfold toolDecideScaleMulti
  rw [if_pos h, if_pos (show 0 < (scaleUpMatches ⟨up, down2⟩ obs).length from h)]
  rfl

/-- Witness for C5 at a concrete input: with a matching scale-up rule, the
decision is the same whether the scale-down list is a fully matching one
or empty. -/
theorem scale_up_wins_ties_witness :
    0 < (scaleUpMatches ⟨[⟨"cpu.avg", ">", 0⟩], [⟨"cpu.avg", "<", 100⟩]⟩
        [("cpu.avg", 50)]).length ∧
      toolDecideScaleMulti "web" 3 1 10
          ⟨[⟨"cpu.avg", ">", 0⟩], [⟨"cpu.avg", "<", 100⟩]⟩ [("cpu.avg", 50)] =
        toolDecideScaleMulti "web" 3 1 10
          ⟨[⟨"cpu.avg", ">", 0⟩], []⟩ [("cpu.avg", 50)] :=
  ⟨by decide, scale_up_wins_ties "web" 3 1 10 [⟨"cpu.avg", ">", 0⟩]
    [⟨"cpu.avg", "<", 100⟩] [] [("cpu.avg", 50)] (by decide)⟩

/-- C8: the decision engine is a pure function of its inputs — two runs on
identical `(current, min, max, rules, observations)` produce the identical
decision record, in particular the same action, target and reason. -/
theorem toolDecideScaleMulti_deterministic (serviceName : String)
    (c mn mx : ℤ) (rules : Rules) (obs : Observations) :
    toolDecideScaleMulti serviceName c mn mx rules obs =
        toolDecideScaleMulti serviceName c mn mx rules obs ∧
      (toolDecideScaleMulti serviceName c mn mx rules obs).action =
        (toolDecideScaleMulti serviceName c mn mx rules obs).action ∧
      (toolDecideScaleMulti serviceName c mn mx rules obs).targetReplicas =
        (toolDecideScaleMulti serviceName c mn mx rules obs).targetReplicas ∧
      (toolDecideScaleMulti serviceName c mn mx rules obs).reason =
        (toolDecideScaleMulti serviceName c mn mx rules obs).reason :=
  ⟨rfl, rfl, rfl, rfl⟩

/-- C10: a condition whose operator is none of `>`, `>=`, `<`, `<=`, `==`,
`!=` evaluates to false against every observation set (the switch default
of `evaluateCondition`): the evaluator is total, so a misconfigured
operator silently disables its condition instead of failing or scaling. -/
theorem unknown_op_never_matches (cond : Condition) (obs : Observations)
    (h : cond.op ∉ ([">", ">=", "<", "<=", "==", "!="] : List String)) :
    evaluateCondition obs cond = false := by
  unfold evaluateCondition
  cases hm : goMapGet obs cond.metric with
  | none => rfl
  | some v => simp_all

/-- Witness for C10 at a concrete input: the mistyped operator `=>` never
matches even though the metric is present and exceeds the threshold. -/
theorem unknown_op_never_matches_witness :
    (Condition.mk "cpu.avg" "=>" 50).op ∉
        ([">", ">=", "<", "<=", "==", "!="] : List String) ∧
      evaluateCondition [("cpu.avg", 100)] ⟨"cpu.avg", "=>", 50⟩ = false :=
  ⟨by decide, unknown_op_never_matches ⟨"cpu.avg", "=>", 50⟩
    [("cpu.avg", 100)] (by decide)⟩

/-- `NewNATSProvider` can fail only with its validation messages, never
with an `UnsupportedKindError`. -/
lemma NewNATSProvider_ne_unsupported (cfg : queue.Config) (k : String) :
    queue.NewNATSProvider cfg ≠ .error (.unsupportedKind k) := by
  unfold queue.NewNATSProvider
  dsimp only
  split_ifs <;> simp

/-- Lookup in the singleton registry, spelt out. -/
lemma registry_lookup (k : String) :
    goMapGet queue.registry k =
      if "nats" = k then some queue.NewNATSProvider else none := rfl

/-- C9: constructing a provider via the registry fails with an
`UnsupportedKindError` naming the requested kind if and only if that kind
was never registered; for a registered kind the registered constructor is
invoked on the config. -/
theorem NewProvider_registry_semantics (cfg : queue.Config) :
    (queue.NewProvider cfg = .error (.unsupportedKind cfg.kind) ↔
      goMapGet queue.registry cfg.kind = none) ∧
    (∀ k, queue.NewProvider cfg = .error (.unsupportedKind k) →
      k = cfg.kind) ∧
    (∀ factory, goMapGet queue.registry cfg.kind = some factory →
      queue.NewProvider cfg = factory cfg) := by
  unfold queue.NewProvider
  rcases h : goMapGet queue.registry cfg.kind with _ | factory
  · refine ⟨by simp, ?_, ?_⟩
    · intro k hk
      simpa using hk.symm
    · intro f hf
      exact absurd hf (by simp)
  · have hfac : factory = queue.NewNATSProvider := by
      rw [registry_lookup] at h
      split_ifs at h
      simpa using h.symm
    refine ⟨?_, ?_, ?_⟩
    · subst hfac
      simp [NewNATSProvider_ne_unsupported cfg cfg.kind]
    · intro k hk
      subst hfac
      exact absurd hk (NewNATSProvider_ne_unsupported cfg k)
    · intro f hf
      have hf2 : f = factory := by simpa using hf.symm
      rw [hf2]

/-- Witness for C9 at concrete configs: the unregistered kind `kafka`
fails with `UnsupportedKindError{kafka}`; the registered kind `nats`
invokes `NewNATSProvider`. -/
theorem NewProvider_registry_semantics_witness :
    goMapGet queue.registry "kafka" = none ∧
      queue.NewProvider ⟨"kafka", "localhost:9092", []⟩ =
        .error (.unsupportedKind "kafka") ∧
      goMapGet queue.registry "nats" = some queue.NewNATSProvider ∧
      queue.NewProvider ⟨"nats", "nats://localhost:4222",
          [("stream", "EVENTS"), ("consumer", "worker"), ("subject", ""),
            ("jetstream", "true")]⟩ =
        queue.NewNATSProvider ⟨"nats", "nats://localhost:4222",
          [("stream", "EVENTS"), ("consumer", "worker"), ("subject", ""),
            ("jetstream", "true")]⟩ :=
  ⟨rfl,
    (NewProvider_registry_semantics ⟨"kafka", "localhost:9092", []⟩).1.mpr rfl,
    rfl,
    (NewProvider_registry_semantics ⟨"nats", "nats://localhost:4222",
        [("stream", "EVENTS"), ("consumer", "worker"), ("subject", ""),
          ("jetstream", "true")]⟩).2.2 queue.NewNATSProvider rfl⟩

/-- C6 exhibit: the first half of the claim holds — samples `100` then
`350` over a `5` second window give `rate_in = 50.0` — but on a counter
reset (`500` then `100`) the code's `uint64` delta wraps to
`2 ^ 64 - 400` instead of being treated as `0`, so `rate_in` is an
astronomically large positive number, not `0`: the code contradicts the
claimed (and spec-mandated) clamping, which the neighbouring `lag`
computation does perform. -/
theorem rateIn_counter_reset_wraps :
    queue.rateIn 100 350 5 = 50 ∧
      queue.rateIn 500 100 5 = ((2 ^ 64 - 400 : ℕ) : ℚ) / 5 ∧
      queue.rateIn 500 100 5 ≠ 0 := by
  refine ⟨?_, ?_, ?_⟩ <;> norm_num [queue.rateIn, queue.uint64Sub]

/-- C7 exhibit: a monitoring iteration whose queue collection fails does
proceed past the failure with CPU-only observations, but no decision
record is ever appended: extracting `target_replicas` from the decision
map asserts `.(float64)` on a value stored as a Go `int`, so the iteration
panics before `logDecisionJSONL` runs; and a failed CPU collection aborts
the iteration outright (early return, no decision, no ledger append) —
both contradicting the claim that such iterations still append a decision
record. -/
theorem runScalingIteration_aborts_or_panics :
    (runScalingIteration exampleService
        { currentReplicasResult := .ok 2
          cpuMetricsResult := .ok [("cpu.avg", 50)]
          queueMetricsResult := .error "nats: connection refused" } =
      .panicked) ∧
    (runScalingIteration exampleService
        { currentReplicasResult := .ok 2
          cpuMetricsResult := .error "docker stats failed"
          queueMetricsResult := .error "nats: connection refused" } =
      .abortedCpuCollection) :=
  ⟨rfl, rfl⟩

end Docktor
